import Mathlib

/-
Verification of the CXEMA test-vector generator
(src/scripts/generate_test_vectors.py).

The script has three parts:
  * a catalog of per-component simulation functions (sim_cx04 .. sim_cx181),
    each mapping input waveforms (name -> list of 0/1 values) and a tick
    count to output waveforms;
  * the don't-care mask synthesizer generate_test_vector, turning an output
    waveform into a string of '?' (check this tick) and 'x' (don't care);
  * the driver process_level, which gathers input waveforms from a level
    document, runs the simulation guarded by a try/except, and rewrites the
    output waveforms and test vectors.

The embedding below mirrors those functions.  Waveform values are natural
numbers (the driver only ever produces 0 or 1 from the persisted strings).
Python dictionary lookups and list indexing can raise; the simulation
functions are therefore embedded in the Except String monad, where
dictGet models dict lookup (KeyError) and listGet models list indexing
(IndexError), exactly at the places where the Python code performs them.
Pin-index-to-name resolution in the driver is name-level glue and is
abstracted: level waveforms here carry their resolved signal name.
-/

abbrev Wave := List Nat

abbrev SigMap := List (String × Wave)

/-- Python dict lookup `inputs[name]`: last binding of the name wins,
a missing key raises KeyError. -/
def dictGet (m : SigMap) (name : String) : Except String Wave :=
  match m.reverse.find? (fun p => p.1 == name) with
  | some p => Except.ok p.2
  | none => Except.error ("KeyError: " ++ name)

/-- Python list indexing `l[t]` for 0 <= t: out of range raises IndexError. -/
def listGet (l : Wave) (t : Nat) : Except String Nat :=
  match l[t]? with
  | some v => Except.ok v
  | none => Except.error "list index out of range"

/-- Python list comprehension `[f(t) for t in range(n)]` starting at tick t0:
evaluated left to right, the first raised exception aborts the whole list. -/
def rangeMapE (f : Nat → Except String Nat) : Nat → Nat → Except String Wave
  | 0, _ => Except.ok []
  | Nat.succ k, t => do
    let v ← f t
    let rest ← rangeMapE f k (t + 1)
    Except.ok (v :: rest)

/-- `[f(t) for t in range(n)]`. -/
def comp (n : Nat) (f : Nat → Except String Nat) : Except String Wave :=
  rangeMapE f n 0

/-- The mask synthesizer `generate_test_vector(values, stability_ticks,
warmup_ticks)`.  Starts from a row of '?', marks the first
`min warmup_ticks len` ticks 'x', then for every index `i` in
`range(1, len)` whose value differs from the previous one marks ticks
`i + j` for `j` in `range(stability_ticks)` (skipping out-of-range ones). -/
def generate_test_vector (values : List Nat) (stability_ticks warmup_ticks : Nat) : List Char :=
  let t0 := List.replicate values.length '?'
  let t1 := (List.range (min warmup_ticks values.length)).foldl (fun t i => t.set i 'x') t0
  (List.range' 1 (values.length - 1)).foldl
    (fun t i =>
      if values.getD i 0 ≠ values.getD (i - 1) 0 then
        (List.range stability_ticks).foldl
          (fun t2 j => if i + j < values.length then t2.set (i + j) 'x' else t2) t
      else t) t1

/-- The tri-state test symbols of the specification. -/
inductive TriSym where
  | d0 : TriSym
  | d1 : TriSym
  | dc : TriSym
deriving DecidableEq

/-- The defined symbol carried by a waveform value. -/
def definedSym (v : Nat) : TriSym :=
  if v = 0 then TriSym.d0 else TriSym.d1

/-- How a (values, test) pair of the script encodes the specification's
tri-state symbol at tick k: a test character 'x' is don't-care, any other
tick is checked against the waveform's own value. -/
def symbolAt (values : List Nat) (test : List Char) (k : Nat) : TriSym :=
  if test.getD k '?' = 'x' then TriSym.dc else definedSym (values.getD k 0)

/-- Tick k lies inside the stability window of some transition of `values`
(window of size `st` starting at the transition index itself). -/
def inWindow (values : List Nat) (st k : Nat) : Bool :=
  (List.range' 1 (values.length - 1)).any fun i =>
    decide (values.getD i 0 ≠ values.getD (i - 1) 0) && (decide (i ≤ k) && decide (k < i + st))

/-- CX04: four inverters. -/
def sim_cx04 (inputs : SigMap) (n_ticks : Nat) : Except String SigMap := do
  let na ← comp n_ticks (fun t => do
    let w ← dictGet inputs "A"; let v ← listGet w t; Except.ok (1 - v))
  let nb ← comp n_ticks (fun t => do
    let w ← dictGet inputs "B"; let v ← listGet w t; Except.ok (1 - v))
  let nc ← comp n_ticks (fun t => do
    let w ← dictGet inputs "C"; let v ← listGet w t; Except.ok (1 - v))
  let nd ← comp n_ticks (fun t => do
    let w ← dictGet inputs "D"; let v ← listGet w t; Except.ok (1 - v))
  Except.ok [("~A", na), ("~B", nb), ("~C", nc), ("~D", nd)]

/-- CX08: four-input AND and OR reductions. -/
def sim_cx08 (inputs : SigMap) (n_ticks : Nat) : Except String SigMap := do
  let y0 ← comp n_ticks (fun t => do
    let aw ← dictGet inputs "A"; let a ← listGet aw t
    let bw ← dictGet inputs "B"; let b ← listGet bw t
    let cw ← dictGet inputs "C"; let c ← listGet cw t
    let dw ← dictGet inputs "D"; let d ← listGet dw t
    Except.ok (a &&& b &&& c &&& d))
  let y1 ← comp n_ticks (fun t => do
    let aw ← dictGet inputs "A"; let a ← listGet aw t
    let bw ← dictGet inputs "B"; let b ← listGet bw t
    let cw ← dictGet inputs "C"; let c ← listGet cw t
    let dw ← dictGet inputs "D"; let d ← listGet dw t
    Except.ok (a ||| b ||| c ||| d))
  Except.ok [("Y0", y0), ("Y1", y1)]

/-- CX02: three NOR gates. -/
def sim_cx02 (inputs : SigMap) (n_ticks : Nat) : Except String SigMap := do
  let y0 ← comp n_ticks (fun t => do
    let aw ← dictGet inputs "A"; let a ← listGet aw t
    let bw ← dictGet inputs "B"; let b ← listGet bw t
    Except.ok (1 - (a ||| b)))
  let y1 ← comp n_ticks (fun t => do
    let cw ← dictGet inputs "C"; let c ← listGet cw t
    let dw ← dictGet inputs "D"; let d ← listGet dw t
    Except.ok (1 - (c ||| d)))
  let y2 ← comp n_ticks (fun t => do
    let ew ← dictGet inputs "E"; let e ← listGet ew t
    let fw ← dictGet inputs "F"; let f ← listGet fw t
    Except.ok (1 - (e ||| f)))
  Except.ok [("Y0", y0), ("Y1", y1), ("Y2", y2)]

/-- CX00: three NAND gates. -/
def sim_cx00 (inputs : SigMap) (n_ticks : Nat) : Except String SigMap := do
  let y0 ← comp n_ticks (fun t => do
    let aw ← dictGet inputs "A"; let a ← listGet aw t
    let bw ← dictGet inputs "B"; let b ← listGet bw t
    Except.ok (1 - (a &&& b)))
  let y1 ← comp n_ticks (fun t => do
    let cw ← dictGet inputs "C"; let c ← listGet cw t
    let dw ← dictGet inputs "D"; let d ← listGet dw t
    Except.ok (1 - (c &&& d)))
  let y2 ← comp n_ticks (fun t => do
    let ew ← dictGet inputs "E"; let e ← listGet ew t
    let fw ← dictGet inputs "F"; let f ← listGet fw t
    Except.ok (1 - (e &&& f)))
  Except.ok [("Y0", y0), ("Y1", y1), ("Y2", y2)]

/-- CXR01: power-on reset, output 1 for the first 4 ticks then 0. -/
def sim_cxr01 (_inputs : SigMap) (n_ticks : Nat) : Except String SigMap := do
  let r ← comp n_ticks (fun t => Except.ok (if t < 4 then 1 else 0))
  Except.ok [("~R", r)]

/-- CX279 inner loop: RS flip-flop state threading; emits the state after
each tick's update. -/
def cx279Loop (inputs : SigMap) : Nat → Nat → Nat → Except String Wave
  | 0, _, _ => Except.ok []
  | Nat.succ k, t, state => do
    let sw ← dictGet inputs "S"; let s ← listGet sw t
    let rw ← dictGet inputs "R"; let r ← listGet rw t
    let state1 := if s ≠ 0 ∧ r = 0 then 1 else if r ≠ 0 ∧ s = 0 then 0 else state
    let rest ← cx279Loop inputs k (t + 1) state1
    Except.ok (state1 :: rest)

/-- CX279: RS flip-flop. -/
def sim_cx279 (inputs : SigMap) (n_ticks : Nat) : Except String SigMap := do
  let q ← cx279Loop inputs n_ticks 0 0
  Except.ok [("Q", q), ("~Q", q.map (fun v => 1 - v))]

/-- CX279E inner loop: RS flip-flop gated by an enable input. -/
def cx279eLoop (inputs : SigMap) : Nat → Nat → Nat → Except String Wave
  | 0, _, _ => Except.ok []
  | Nat.succ k, t, state => do
    let ew ← dictGet inputs "E"; let e ← listGet ew t
    let sw ← dictGet inputs "S"; let s ← listGet sw t
    let rw ← dictGet inputs "R"; let r ← listGet rw t
    let state1 :=
      if e ≠ 0 then
        if s ≠ 0 ∧ r = 0 then 1 else if r ≠ 0 ∧ s = 0 then 0 else state
      else state
    let rest ← cx279eLoop inputs k (t + 1) state1
    Except.ok (state1 :: rest)

/-- CX279E: RS flip-flop with enable. -/
def sim_cx279e (inputs : SigMap) (n_ticks : Nat) : Except String SigMap := do
  let q ← cx279eLoop inputs n_ticks 0 0
  Except.ok [("Q", q), ("~Q", q.map (fun v => 1 - v))]

/-- CX556: free-running dual clock generator. -/
def sim_cx556 (_inputs : SigMap) (n_ticks : Nat) : Except String SigMap := do
  let c1 ← comp n_ticks (fun t => Except.ok (1 - (t / 2) % 2))
  let c2 ← comp n_ticks (fun t => Except.ok (1 - (t / 4) % 2))
  Except.ok [("CL1", c1), ("CL2", c2)]

/-- CX74 inner loop: positive-edge-triggered D register; on a rising edge
(current clock truthy, previous sample 0) the state captures D, and the
state after the update is emitted at that same tick. -/
def cx74Loop (inputs : SigMap) : Nat → Nat → Nat → Nat → Except String Wave
  | 0, _, _, _ => Except.ok []
  | Nat.succ k, t, state, prev_clk => do
    let cw ← dictGet inputs "CLK"; let clk ← listGet cw t
    let dw ← dictGet inputs "D"; let d ← listGet dw t
    let state1 := if clk ≠ 0 ∧ prev_clk = 0 then d else state
    let rest ← cx74Loop inputs k (t + 1) state1 clk
    Except.ok (state1 :: rest)

/-- CX74: single-bit D flip-flop. -/
def sim_cx74 (inputs : SigMap) (n_ticks : Nat) : Except String SigMap := do
  let q ← cx74Loop inputs n_ticks 0 0 0
  Except.ok [("Q", q), ("~Q", q.map (fun v => 1 - v))]

/-- CXF02: frequency doubler (passthrough when S is 0, else XOR with the
clock delayed by 2 ticks, the delayed sample being 0 before tick 2). -/
def sim_cxf02 (inputs : SigMap) (n_ticks : Nat) : Except String SigMap := do
  let y ← comp n_ticks (fun t => do
    let cw ← dictGet inputs "CLK"; let clk ← listGet cw t
    let sw ← dictGet inputs "S"; let s ← listGet sw t
    if s = 0 then Except.ok clk
    else do
      let dclk ← if 2 ≤ t then do
          let cw2 ← dictGet inputs "CLK"; listGet cw2 (t - 2)
        else Except.ok 0
      Except.ok (clk ^^^ dclk))
  Except.ok [("Y", y)]

/-- CX139 inner loop: 2-to-4 decoder with enable, one tuple of the four
output values per tick. -/
def cx139Loop (inputs : SigMap) : Nat → Nat → Except String (Wave × Wave × Wave × Wave)
  | 0, _ => Except.ok ([], [], [], [])
  | Nat.succ k, t => do
    let ew ← dictGet inputs "E"; let e ← listGet ew t
    let a0w ← dictGet inputs "A0"; let a0 ← listGet a0w t
    let a1w ← dictGet inputs "A1"; let a1 ← listGet a1w t
    let addr := a1 * 2 + a0
    let v0 := if e ≠ 0 ∧ addr = 0 then 1 else 0
    let v1 := if e ≠ 0 ∧ addr = 1 then 1 else 0
    let v2 := if e ≠ 0 ∧ addr = 2 then 1 else 0
    let v3 := if e ≠ 0 ∧ addr = 3 then 1 else 0
    let rest ← cx139Loop inputs k (t + 1)
    Except.ok (v0 :: rest.1, v1 :: rest.2.1, v2 :: rest.2.2.1, v3 :: rest.2.2.2)

/-- CX139: 2-to-4 decoder with enable. -/
def sim_cx139 (inputs : SigMap) (n_ticks : Nat) : Except String SigMap := do
  let r ← cx139Loop inputs n_ticks 0
  Except.ok [("Y0", r.1), ("Y1", r.2.1), ("Y2", r.2.2.1), ("Y3", r.2.2.2)]

/-- CX83 inner loop: 2-bit full adder, a tuple (S0, S1, CO) per tick. -/
def cx83Loop (inputs : SigMap) : Nat → Nat → Except String (Wave × Wave × Wave)
  | 0, _ => Except.ok ([], [], [])
  | Nat.succ k, t => do
    let a1w ← dictGet inputs "A1"; let a1 ← listGet a1w t
    let a0w ← dictGet inputs "A0"; let a0 ← listGet a0w t
    let b1w ← dictGet inputs "B1"; let b1 ← listGet b1w t
    let b0w ← dictGet inputs "B0"; let b0 ← listGet b0w t
    let ciw ← dictGet inputs "CI"; let ci ← listGet ciw t
    let result := (a1 * 2 + a0) + (b1 * 2 + b0) + ci
    let rest ← cx83Loop inputs k (t + 1)
    Except.ok ((result &&& 1) :: rest.1, ((result >>> 1) &&& 1) :: rest.2.1,
      ((result >>> 2) &&& 1) :: rest.2.2)

/-- CX83: 2-bit full adder. -/
def sim_cx83 (inputs : SigMap) (n_ticks : Nat) : Except String SigMap := do
  let r ← cx83Loop inputs n_ticks 0
  Except.ok [("S0", r.1), ("S1", r.2.1), ("CO", r.2.2)]

/-- CX93 inner loop: divide-by-4 counter; the count advances modulo 4 on
each rising clock edge, the output is 1 when the count is at least 2. -/
def cx93Loop (inputs : SigMap) : Nat → Nat → Nat → Nat → Except String Wave
  | 0, _, _, _ => Except.ok []
  | Nat.succ k, t, count, prev_clk => do
    let cw ← dictGet inputs "CLK"; let clk ← listGet cw t
    let count1 := if clk ≠ 0 ∧ prev_clk = 0 then (count + 1) % 4 else count
    let rest ← cx93Loop inputs k (t + 1) count1 clk
    Except.ok ((if 2 ≤ count1 then 1 else 0) :: rest)

/-- CX93: divide-by-4 counter. -/
def sim_cx93 (inputs : SigMap) (n_ticks : Nat) : Except String SigMap := do
  let y ← cx93Loop inputs n_ticks 0 0 0
  Except.ok [("Y", y)]

/-- CX153: 4-to-1 multiplexer; only the selected data input is read. -/
def sim_cx153 (inputs : SigMap) (n_ticks : Nat) : Except String SigMap := do
  let y ← comp n_ticks (fun t => do
    let s1w ← dictGet inputs "S1"; let s1 ← listGet s1w t
    let s0w ← dictGet inputs "S0"; let s0 ← listGet s0w t
    let s := s1 * 2 + s0
    if s = 0 then do let w ← dictGet inputs "D0"; listGet w t
    else if s = 1 then do let w ← dictGet inputs "D1"; listGet w t
    else if s = 2 then do let w ← dictGet inputs "D2"; listGet w t
    else do let w ← dictGet inputs "D3"; listGet w t)
  Except.ok [("Y", y)]

/-- CX161 inner loop: modulo-16 counter with synchronous clear, a tuple of
the four count bits per tick. -/
def cx161Loop (inputs : SigMap) : Nat → Nat → Nat → Nat → Except String (Wave × Wave × Wave × Wave)
  | 0, _, _, _ => Except.ok ([], [], [], [])
  | Nat.succ k, t, count, prev_clk => do
    let cw ← dictGet inputs "CLK"; let clk ← listGet cw t
    let clw ← dictGet inputs "CLR"; let clr ← listGet clw t
    let count1 :=
      if clk ≠ 0 ∧ prev_clk = 0 then (if clr ≠ 0 then 0 else (count + 1) % 16) else count
    let rest ← cx161Loop inputs k (t + 1) count1 clk
    Except.ok ((count1 &&& 1) :: rest.1, ((count1 >>> 1) &&& 1) :: rest.2.1,
      ((count1 >>> 2) &&& 1) :: rest.2.2.1, ((count1 >>> 3) &&& 1) :: rest.2.2.2)

/-- CX161: 4-bit counter with synchronous clear. -/
def sim_cx161 (inputs : SigMap) (n_ticks : Nat) : Except String SigMap := do
  let r ← cx161Loop inputs n_ticks 0 0 0
  Except.ok [("Q0", r.1), ("Q1", r.2.1), ("Q2", r.2.2.1), ("Q3", r.2.2.2)]

/-- CX195 inner loop: 4-bit shift register, a tuple of the four stage
values per tick. -/
def cx195Loop (inputs : SigMap) :
    Nat → Nat → Nat × Nat × Nat × Nat → Nat → Except String (Wave × Wave × Wave × Wave)
  | 0, _, _, _ => Except.ok ([], [], [], [])
  | Nat.succ k, t, reg, prev_clk => do
    let cw ← dictGet inputs "CLK"; let clk ← listGet cw t
    let dw ← dictGet inputs "DIN"; let din ← listGet dw t
    let reg1 := if clk ≠ 0 ∧ prev_clk = 0 then (din, reg.1, reg.2.1, reg.2.2.1) else reg
    let rest ← cx195Loop inputs k (t + 1) reg1 clk
    Except.ok (reg1.1 :: rest.1, reg1.2.1 :: rest.2.1, reg1.2.2.1 :: rest.2.2.1,
      reg1.2.2.2 :: rest.2.2.2)

/-- CX195: 4-bit shift register. -/
def sim_cx195 (inputs : SigMap) (n_ticks : Nat) : Except String SigMap := do
  let r ← cx195Loop inputs n_ticks 0 (0, 0, 0, 0) 0
  Except.ok [("Q0", r.1), ("Q1", r.2.1), ("Q2", r.2.2.1), ("Q3", r.2.2.2)]

/-- The 3-bit address A2*4 + A1*2 + A0 of the CX6116 memory. -/
def cx6116Addr (a2 a1 a0 : Nat) : Nat := a2 * 4 + a1 * 2 + a0

/-- Python list assignment `memory[addr] = v`: out of range raises. -/
def memWrite (mem : Wave) (addr v : Nat) : Except String Wave :=
  if addr < mem.length then Except.ok (mem.set addr v)
  else Except.error "list assignment index out of range"

/-- CX6116 inner loop: 8x1-bit RAM.  Per tick: compute the address, read
WE, RE and D_in; write the addressed cell when WE and not RE, read it into
the output when RE and not WE, otherwise output 0. -/
def cx6116Loop (inputs : SigMap) : Nat → Nat → Wave → Except String Wave
  | 0, _, _ => Except.ok []
  | Nat.succ k, t, memory => do
    let a2w ← dictGet inputs "A2"; let a2 ← listGet a2w t
    let a1w ← dictGet inputs "A1"; let a1 ← listGet a1w t
    let a0w ← dictGet inputs "A0"; let a0 ← listGet a0w t
    let addr := cx6116Addr a2 a1 a0
    let ww ← dictGet inputs "WE"; let we ← listGet ww t
    let rw ← dictGet inputs "RE"; let re ← listGet rw t
    let dw ← dictGet inputs "D_in"; let d_in ← listGet dw t
    let memory1 ← if we ≠ 0 ∧ re = 0 then memWrite memory addr d_in else Except.ok memory
    let out ← if re ≠ 0 ∧ we = 0 then listGet memory1 addr else Except.ok 0
    let rest ← cx6116Loop inputs k (t + 1) memory1
    Except.ok (out :: rest)

/-- CX6116: 8x1-bit RAM, memory initially all zero. -/
def sim_cx6116 (inputs : SigMap) (n_ticks : Nat) : Except String SigMap := do
  let d_out ← cx6116Loop inputs n_ticks 0 (List.replicate 8 0)
  Except.ok [("D_out", d_out)]

/-- CX181 inner loop: 2-bit logic unit, a tuple (Y0, Y1, Z) per tick.
The NOT-A case `(~a) & 3` of the source flips the low two bits of `a`,
i.e. equals `3 - (a &&& 3)`. -/
def cx181Loop (inputs : SigMap) : Nat → Nat → Except String (Wave × Wave × Wave)
  | 0, _ => Except.ok ([], [], [])
  | Nat.succ k, t => do
    let a1w ← dictGet inputs "A1"; let a1 ← listGet a1w t
    let a0w ← dictGet inputs "A0"; let a0 ← listGet a0w t
    let b1w ← dictGet inputs "B1"; let b1 ← listGet b1w t
    let b0w ← dictGet inputs "B0"; let b0 ← listGet b0w t
    let f1w ← dictGet inputs "F1"; let f1 ← listGet f1w t
    let f0w ← dictGet inputs "F0"; let f0 ← listGet f0w t
    let a := a1 * 2 + a0
    let b := b1 * 2 + b0
    let f := f1 * 2 + f0
    let result :=
      if f = 0 then a &&& b
      else if f = 1 then a ||| b
      else if f = 2 then 3 - (a &&& 3)
      else a ^^^ b
    let rest ← cx181Loop inputs k (t + 1)
    Except.ok ((result &&& 1) :: rest.1, ((result >>> 1) &&& 1) :: rest.2.1,
      (if result = 0 then 1 else 0) :: rest.2.2)

/-- CX181: 2-bit logic unit. -/
def sim_cx181 (inputs : SigMap) (n_ticks : Nat) : Except String SigMap := do
  let r ← cx181Loop inputs n_ticks 0
  Except.ok [("Y0", r.1), ("Y1", r.2.1), ("Z", r.2.2)]

/-- One registry entry of LEVEL_CONFIG: declared input and output signal
names, the optional timing hints, and the simulation function.  (The
pin-number table of the source is display glue and not modelled.) -/
structure Config where
  inputNames : List String
  outputNames : List String
  stability_ticks : Option Nat
  warmup_ticks : Option Nat
  sim : SigMap → Nat → Except String SigMap

/-- The LEVEL_CONFIG registry of the script, in source order. -/
def LEVEL_CONFIG : List (String × Config) :=
  [ ("CX04", ⟨["A", "B", "C", "D"], ["~A", "~B", "~C", "~D"], none, none, sim_cx04⟩),
    ("CX08", ⟨["A", "B", "C", "D"], ["Y0", "Y1"], none, none, sim_cx08⟩),
    ("CX02", ⟨["A", "B", "C", "D", "E", "F"], ["Y0", "Y1", "Y2"], none, none, sim_cx02⟩),
    ("CX00", ⟨["A", "B", "C", "D", "E", "F"], ["Y0", "Y1", "Y2"], none, none, sim_cx00⟩),
    ("CXR01", ⟨[], ["~R"], none, none, sim_cxr01⟩),
    ("CX279", ⟨["S", "R"], ["Q", "~Q"], some 2, some 2, sim_cx279⟩),
    ("CX279E", ⟨["S", "R", "E"], ["Q", "~Q"], some 2, some 2, sim_cx279e⟩),
    ("CX556", ⟨[], ["CL1", "CL2"], some 0, none, sim_cx556⟩),
    ("CX74", ⟨["D", "CLK"], ["Q", "~Q"], some 3, none, sim_cx74⟩),
    ("CXF02", ⟨["CLK", "S"], ["Y"], some 0, none, sim_cxf02⟩),
    ("CX139", ⟨["A0", "A1", "E"], ["Y0", "Y1", "Y2", "Y3"], some 2, none, sim_cx139⟩),
    ("CX83", ⟨["A0", "A1", "B0", "B1", "CI"], ["S0", "S1", "CO"], some 4, none, sim_cx83⟩),
    ("CX93", ⟨["CLK"], ["Y"], some 2, none, sim_cx93⟩),
    ("CX153", ⟨["D0", "D1", "D2", "D3", "S0", "S1"], ["Y"], some 2, none, sim_cx153⟩),
    ("CX161", ⟨["CLK", "CLR"], ["Q0", "Q1", "Q2", "Q3"], some 2, none, sim_cx161⟩),
    ("CX195", ⟨["DIN", "CLK"], ["Q0", "Q1", "Q2", "Q3"], some 2, none, sim_cx195⟩),
    ("CX6116", ⟨["A0", "A1", "A2", "WE", "RE", "D_in"], ["D_out"], some 2, none, sim_cx6116⟩),
    ("CX181", ⟨["A0", "A1", "B0", "B1", "F0", "F1"], ["Y0", "Y1", "Z"], some 2, none, sim_cx181⟩) ]

/-- `LEVEL_CONFIG.get(level_name)`. -/
def configGet (name : String) : Option Config :=
  (LEVEL_CONFIG.find? (fun p => p.1 == name)).map (fun p => p.2)

/-- One waveform entry of a level document, with its signal name already
resolved (the script resolves pin indices to names; that resolution is
sheer table lookup and is abstracted here). -/
structure LevelWaveform where
  signal : String
  is_input : Bool
  values : String

/-- A level document: the file name it came from, its declared component
name, and its waveforms. -/
structure Level where
  fileName : String
  levelName : String
  waveforms : List LevelWaveform

/-- `[1 if c == '1' else 0 for c in values_str]`. -/
def parseWave (s : String) : Wave :=
  s.data.map (fun c => if c = '1' then 1 else 0)

/-- The input-gathering loop of process_level: every input waveform whose
name is not vcc/nc is parsed and recorded, and n_ticks is overwritten with
that waveform's length each time (so the last input waveform wins;
the initial value is 64). -/
def gatherInputs (wfs : List LevelWaveform) : SigMap × Nat :=
  wfs.foldl
    (fun acc wf =>
      if wf.is_input ∧ wf.signal ≠ "vcc" ∧ wf.signal ≠ "nc" then
        (acc.1 ++ [(wf.signal, parseWave wf.values)], wf.values.length)
      else acc)
    ([], 64)

/-- `out_name in outputs` / `outputs[out_name]` as an Option. -/
def sigLookup (m : SigMap) (name : String) : Option Wave :=
  (m.reverse.find? (fun p => p.1 == name)).map (fun p => p.2)

/-- `''.join(str(v) for v in new_values)`. -/
def waveStr (w : Wave) : String :=
  String.join (w.map (fun v => toString v))

/-- The output-rewriting loop of process_level: for every non-input
waveform whose resolved name is among the simulated outputs, the new
values string and the new test vector that the script would store. -/
def processOutputs (wfs : List LevelWaveform) (outs : SigMap) (st w : Nat) :
    List (String × String × String) :=
  wfs.foldl
    (fun acc wf =>
      if wf.is_input then acc
      else
        match sigLookup outs wf.signal with
        | none => acc
        | some vals =>
          acc ++ [(wf.signal, waveStr vals, String.mk (generate_test_vector vals st w))])
    []

/-- Outcome of process_level on one level: the unknown-component skip, the
caught simulation fault (both carrying the printed report and producing no
outputs), or normal completion with the rewritten output waveforms. -/
inductive ProcessResult where
  | noConfig (report : String) : ProcessResult
  | simError (report : String) : ProcessResult
  | done (outs : List (String × String × String)) : ProcessResult
deriving DecidableEq

/-- process_level: look the component up in LEVEL_CONFIG (missing: report
and skip), gather the input waveforms, run the simulation inside
try/except (exception: report and skip), then rewrite the output
waveforms using the config's timing hints (defaults 1 and 0). -/
def process_level (lv : Level) : ProcessResult :=
  match configGet lv.levelName with
  | none =>
    ProcessResult.noConfig (lv.fileName ++ ": No config for " ++ lv.levelName ++ ", skipping")
  | some cfg =>
    let gi := gatherInputs lv.waveforms
    match cfg.sim gi.1 gi.2 with
    | Except.error e =>
      ProcessResult.simError (lv.fileName ++ ": Simulation error: " ++ e)
    | Except.ok outs =>
      ProcessResult.done
        (processOutputs lv.waveforms outs (cfg.stability_ticks.getD 1) (cfg.warmup_ticks.getD 0))

/-- The batch loop of main: each level file is processed in turn, and the
outcome of one run never interrupts the processing of its siblings. -/
def processBatch (lvs : List Level) : List ProcessResult :=
  lvs.map process_level

/-- The address the CX6116 loop computes at tick t from the three address
waveforms. -/
def cx6116AddrAt (a0W a1W a2W : Wave) (t : Nat) : Nat :=
  cx6116Addr (a2W.getD t 0) (a1W.getD t 0) (a0W.getD t 0)

/-- The CX6116 memory contents after ticks 0..t-1, restating the loop's
write rule: a tick with WE truthy and RE zero overwrites the addressed
cell with D_in, any other tick leaves the memory unchanged. -/
def cx6116MemAfter (a0W a1W a2W weW reW dinW : Wave) : Nat → Wave
  | 0 => List.replicate 8 0
  | t + 1 =>
    let m := cx6116MemAfter a0W a1W a2W weW reW dinW t
    if weW.getD t 0 ≠ 0 ∧ reW.getD t 0 = 0 then
      m.set (cx6116AddrAt a0W a1W a2W t) (dinW.getD t 0)
    else m

/-- CX6116 scenario inputs: tick 0 writes 1 to address 5, tick 1 reads
address 5, tick 2 reads the never-written address 3. -/
def cx6116ScenarioInputs : SigMap :=
  [("A0", [1, 1, 1]), ("A1", [0, 0, 1]), ("A2", [1, 1, 0]),
   ("WE", [1, 0, 0]), ("RE", [0, 1, 1]), ("D_in", [1, 0, 0])]

/-- A CX74 level whose input waveforms have mismatched lengths (CLK has 3
ticks, D has 1) with the shorter waveform last, so the run uses 1 tick. -/
def mismatchLevel : Level :=
  ⟨"cx74_mismatch.json", "CX74",
    [⟨"CLK", true, "011"⟩, ⟨"D", true, "1"⟩, ⟨"Q", false, "000"⟩]⟩

/-- A CX74 level whose input waveforms have mismatched lengths with the
longer waveform last, so simulation indexes CLK out of range. -/
def oobLevel : Level :=
  ⟨"cx74_oob.json", "CX74",
    [⟨"CLK", true, "01"⟩, ⟨"D", true, "111"⟩, ⟨"Q", false, "000"⟩]⟩

/-- A well-formed CX74 level (the spec's register scenario). -/
def goodLevel : Level :=
  ⟨"cx74_good.json", "CX74",
    [⟨"D", true, "00111"⟩, ⟨"CLK", true, "01101"⟩, ⟨"Q", false, "00000"⟩]⟩

/-- A CX74 level missing its declared D input waveform: the model reads a
signal it was not given. -/
def missingDLevel : Level :=
  ⟨"cx74_missing.json", "CX74", [⟨"CLK", true, "01"⟩]⟩

theorem ok_bind {α β : Type} (a : α) (f : α → Except String β) :
    (Except.ok a : Except String α) >>= f = f a := rfl

theorem error_bind {α β : Type} (e : String) (f : α → Except String β) :
    (Except.error e : Except String α) >>= f = Except.error e := rfl

theorem getD_set_x (t : List Char) (i k : Nat) :
    (t.set i 'x').getD k '?' = if i = k ∧ k < t.length then 'x' else t.getD k '?' := by
  rw [List.getD_eq_getElem?_getD, List.getD_eq_getElem?_getD, List.getElem?_set]
  by_cases h1 : i = k
  · subst h1
    by_cases h2 : i < t.length
    · simp [h2]
    · rw [List.getElem?_eq_none (Nat.le_of_not_lt h2)]
      simp [h2]
  · simp [h1]

theorem foldl_preserve_length {α : Type} (l : List α) (f : List Char → α → List Char)
    (hf : ∀ t a, (f t a).length = t.length) :
    ∀ t : List Char, (l.foldl f t).length = t.length := by
  induction l with
  | nil => intro t; rfl
  | cons a l ih => intro t; rw [List.foldl_cons, ih, hf]

theorem foldl_mark_getD {α : Type} (l : List α) (q : α → Nat → Bool)
    (f : List Char → α → List Char)
    (hlen : ∀ t a, (f t a).length = t.length)
    (hget : ∀ (t : List Char) (a : α) (k : Nat),
      (f t a).getD k '?' = if q a k = true ∧ k < t.length then 'x' else t.getD k '?') :
    ∀ (t : List Char) (k : Nat),
      (l.foldl f t).getD k '?' =
        if (l.any fun a => q a k) = true ∧ k < t.length then 'x' else t.getD k '?' := by
  induction l with
  | nil => intro t k; simp
  | cons a l ih =>
    intro t k
    rw [List.foldl_cons, ih (f t a) k, hlen t a, hget t a k, List.any_cons]
    by_cases h1 : q a k = true
    · by_cases h2 : k < t.length
      · simp [h1, h2]
      · simp [h1, h2]
    · rw [Bool.not_eq_true] at h1
      simp [h1]

theorem replicate_getD (len k : Nat) : (List.replicate len '?').getD k '?' = '?' := by
  rw [List.getD_eq_getElem?_getD, List.getElem?_replicate]
  split <;> rfl

theorem warmup_fold_getD (w len k : Nat) (hk : k < len) :
    ((List.range (min w len)).foldl (fun t i => t.set i 'x')
        (List.replicate len '?')).getD k '?' = if k < w then 'x' else '?' := by
  rw [foldl_mark_getD (List.range (min w len)) (fun i k => i == k) _
    (fun t i => List.length_set t i 'x')
    (fun t i k => by rw [getD_set_x]; by_cases h : i = k <;> simp [h])]
  have hany : ((List.range (min w len)).any fun i => i == k) = true ↔ k < w := by
    rw [List.any_eq_true]
    constructor
    · rintro ⟨i, hi, he⟩
      rw [beq_iff_eq] at he
      subst he
      exact Nat.lt_of_lt_of_le (List.mem_range.mp hi) (Nat.min_le_left _ _)
    · intro hw
      exact ⟨k, List.mem_range.mpr (Nat.lt_min.mpr ⟨hw, hk⟩), beq_self_eq_true k⟩
  by_cases hw : k < w
  · simp [hany.mpr hw, List.length_replicate, hk, hw]
  · have : ¬(((List.range (min w len)).any fun i => i == k) = true ∧
        k < (List.replicate len '?').length) := by
      intro hc
      exact hw (hany.mp hc.1)
    rw [if_neg this, replicate_getD, if_neg hw]

theorem inner_fold_getD (values : List Nat) (st i : Nat) (t : List Char) (k : Nat) :
    ((List.range st).foldl
        (fun t2 j => if i + j < values.length then t2.set (i + j) 'x' else t2) t).getD k '?' =
      if ((List.range st).any fun j =>
            decide (i + j = k) && decide (i + j < values.length)) = true ∧ k < t.length
      then 'x' else t.getD k '?' := by
  apply foldl_mark_getD
  · intro t2 j
    split
    · exact List.length_set t2 _ 'x'
    · rfl
  · intro t2 j k2
    by_cases h : i + j < values.length
    · rw [if_pos h, getD_set_x]
      simp [h]
    · rw [if_neg h]
      simp [h]

theorem stability_fold_getD (values : List Nat) (st : Nat) (t : List Char) (k : Nat) :
    ((List.range' 1 (values.length - 1)).foldl
        (fun t i =>
          if values.getD i 0 ≠ values.getD (i - 1) 0 then
            (List.range st).foldl
              (fun t2 j => if i + j < values.length then t2.set (i + j) 'x' else t2) t
          else t) t).getD k '?' =
      if ((List.range' 1 (values.length - 1)).any fun i =>
            decide (values.getD i 0 ≠ values.getD (i - 1) 0) &&
              ((List.range st).any fun j =>
                decide (i + j = k) && decide (i + j < values.length))) = true ∧ k < t.length
      then 'x' else t.getD k '?' := by
  apply foldl_mark_getD
  · intro t2 i
    split
    · exact foldl_preserve_length _ _
        (fun t3 j => by split; exacts [List.length_set t3 _ 'x', rfl]) t2
    · rfl
  · intro t2 i k2
    by_cases h : values.getD i 0 ≠ values.getD (i - 1) 0
    · rw [if_pos h, inner_fold_getD, decide_eq_true h, Bool.true_and]
    · rw [if_neg h, decide_eq_false h, Bool.false_and]
      simp

/-- Pointwise description of the synthesized mask: tick k is 'x' exactly
when it is a warm-up tick or lies in the stability window of a transition
of the original values, and '?' otherwise. -/
theorem generate_test_vector_getD (values : List Nat) (st w k : Nat) (hk : k < values.length) :
    (generate_test_vector values st w).getD k '?' =
      if k < w ∨ inWindow values st k = true then 'x' else '?' := by
  unfold generate_test_vector
  rw [stability_fold_getD]
  have hlen1 : ((List.range (min w values.length)).foldl (fun t i => t.set i 'x')
      (List.replicate values.length '?')).length = values.length := by
    rw [foldl_preserve_length _ _ (fun t i => List.length_set t i 'x'), List.length_replicate]
  have hiff : (((List.range' 1 (values.length - 1)).any fun i =>
      decide (values.getD i 0 ≠ values.getD (i - 1) 0) &&
        ((List.range st).any fun j =>
          decide (i + j = k) && decide (i + j < values.length))) = true) ↔
      inWindow values st k = true := by
    unfold inWindow
    rw [List.any_eq_true, List.any_eq_true]
    constructor
    · rintro ⟨i, hi, hc⟩
      simp only [Bool.and_eq_true, List.any_eq_true, List.mem_range, decide_eq_true_eq] at hc
      obtain ⟨ht, j, hj, he, hl⟩ := hc
      refine ⟨i, hi, ?_⟩
      simp only [Bool.and_eq_true, decide_eq_true_eq]
      exact ⟨ht, by omega, by omega⟩
    · rintro ⟨i, hi, hc⟩
      simp only [Bool.and_eq_true, decide_eq_true_eq] at hc
      obtain ⟨ht, hik, hks⟩ := hc
      refine ⟨i, hi, ?_⟩
      simp only [Bool.and_eq_true, List.any_eq_true, List.mem_range, decide_eq_true_eq]
      exact ⟨ht, k - i, by omega, by omega, by omega⟩
  by_cases hwin : inWindow values st k = true
  · rw [if_pos ⟨hiff.mpr hwin, by rw [hlen1]; exact hk⟩, if_pos (Or.inr hwin)]
  · have hnot : ¬(((List.range' 1 (values.length - 1)).any fun i =>
        decide (values.getD i 0 ≠ values.getD (i - 1) 0) &&
          ((List.range st).any fun j =>
            decide (i + j = k) && decide (i + j < values.length))) = true ∧
        k < ((List.range (min w values.length)).foldl (fun t i => t.set i 'x')
          (List.replicate values.length '?')).length) := by
      intro hc
      exact hwin (hiff.mp hc.1)
    rw [if_neg hnot, warmup_fold_getD w values.length k hk]
    by_cases hw : k < w
    · rw [if_pos hw, if_pos (Or.inl hw)]
    · rw [if_neg hw, if_neg (by rintro (h | h); exacts [hw h, hwin h])]

/-- The synthesized mask always has the length of its waveform. -/
theorem generate_test_vector_length (values : List Nat) (st w : Nat) :
    (generate_test_vector values st w).length = values.length := by
  unfold generate_test_vector
  rw [foldl_preserve_length _ _ (fun t i => by
      split
      · exact foldl_preserve_length _ _
          (fun t3 j => by split; exacts [List.length_set t3 _ 'x', rfl]) t
      · rfl),
    foldl_preserve_length _ _ (fun t i => List.length_set t i 'x'), List.length_replicate]

/-- C1: for every waveform and timing hints, every tick index that is not
in the warm-up window [0, warmup_ticks) and not inside any transition's
stability window carries, in the synthesized test vector, the symbol equal
to the waveform's own value at that index (defined-0 for value 0,
defined-1 otherwise), never don't-care. -/
theorem C1_stable_outside_windows (values : List Nat) (st w k : Nat)
    (hk : k < values.length) (hw : w ≤ k)
    (hs : ∀ i, 1 ≤ i → i < values.length →
      values.getD i 0 ≠ values.getD (i - 1) 0 → k < i ∨ i + st ≤ k) :
    symbolAt values (generate_test_vector values st w) k = definedSym (values.getD k 0) ∧
    symbolAt values (generate_test_vector values st w) k ≠ TriSym.dc := by
  have hwin : ¬ inWindow values st k = true := by
    intro hc
    unfold inWindow at hc
    rw [List.any_eq_true] at hc
    obtain ⟨i, hi, hcond⟩ := hc
    simp only [Bool.and_eq_true, decide_eq_true_eq] at hcond
    rw [List.mem_range'_1] at hi
    rcases hs i hi.1 (by omega) hcond.1 with h | h
    · omega
    · omega
  have hchar : (generate_test_vector values st w).getD k '?' = '?' := by
    rw [generate_test_vector_getD values st w k hk, if_neg]
    rintro (h | h)
    · omega
    · exact hwin h
  have hne : ('?' : Char) ≠ 'x' := by decide
  refine ⟨?_, ?_⟩
  · unfold symbolAt
    rw [hchar, if_neg hne]
  · unfold symbolAt
    rw [hchar, if_neg hne]
    unfold definedSym
    split
    · intro hc
      cases hc
    · intro hc
      cases hc

theorem C1_stable_outside_windows_witness :
    symbolAt [0, 1, 1, 0] (generate_test_vector [0, 1, 1, 0] 1 1) 2 = TriSym.d1 :=
  (C1_stable_outside_windows [0, 1, 1, 0] 1 1 2 (by decide) (by decide) (by
    intro i h1 h2 ht
    have h2a : i < 4 := h2
    interval_cases i
    · exact Or.inr (by decide)
    · exact absurd rfl ht
    · exact Or.inl (by decide))).1

/-- C2 counterexample: with stability_ticks = 0 (used by the CX556 and
CXF02 catalog entries) a transition tick keeps its defined symbol: for
values [0, 1] index 1 is a transition, yet its symbol is defined-1 and not
don't-care, refuting the claim for stability_ticks = 0. -/
theorem C2_counterexample :
    [0, 1].getD 1 0 ≠ [0, 1].getD 0 0 ∧
    symbolAt [0, 1] (generate_test_vector [0, 1] 0 0) 1 = TriSym.d1 ∧
    symbolAt [0, 1] (generate_test_vector [0, 1] 0 0) 1 ≠ TriSym.dc := by
  refine ⟨by decide, by decide, by decide⟩

/-- C2 (amended): for every waveform, every transition index i >= 1
(evaluated against the original waveform values, so overlapping windows
compose) forces don't-care on every tick of the window i .. i +
stability_ticks - 1 clamped to the waveform's end — a window that contains
the transition tick itself exactly when stability_ticks >= 1 and is empty
for stability_ticks = 0. -/
theorem C2_transition_window (values : List Nat) (st w i k : Nat)
    (h1 : 1 ≤ i) (hil : i < values.length)
    (ht : values.getD i 0 ≠ values.getD (i - 1) 0)
    (hik : i ≤ k) (hks : k < i + st) (hkl : k < values.length) :
    symbolAt values (generate_test_vector values st w) k = TriSym.dc := by
  have hwin : inWindow values st k = true := by
    unfold inWindow
    rw [List.any_eq_true]
    refine ⟨i, List.mem_range'_1.mpr ⟨h1, by omega⟩, ?_⟩
    simp only [Bool.and_eq_true, decide_eq_true_eq]
    exact ⟨ht, hik, hks⟩
  unfold symbolAt
  rw [generate_test_vector_getD values st w k hkl, if_pos (Or.inr hwin), if_pos rfl]

theorem C2_transition_window_witness :
    symbolAt [0, 1] (generate_test_vector [0, 1] 1 0) 1 = TriSym.dc :=
  C2_transition_window [0, 1] 1 0 1 1 (by decide) (by decide) (by decide)
    (by decide) (by decide) (by decide)

/-- C3: for warmup_ticks = w > 0 every index in [0, w) that is below the
waveform's length is don't-care in the synthesized test vector, regardless
of the waveform's values there. -/
theorem C3_warmup_dominance (values : List Nat) (st w k : Nat)
    (hw0 : 0 < w) (hkw : k < w) (hkl : k < values.length) :
    symbolAt values (generate_test_vector values st w) k = TriSym.dc := by
  unfold symbolAt
  rw [generate_test_vector_getD values st w k hkl, if_pos (Or.inl hkw), if_pos rfl]

theorem C3_warmup_dominance_witness :
    symbolAt [1, 0] (generate_test_vector [1, 0] 1 1) 0 = TriSym.dc :=
  C3_warmup_dominance [1, 0] 1 1 0 (by decide) (by decide) (by decide)

/-- C4: the synthesized test vector always has exactly the waveform's
length; in particular the empty waveform yields the empty mask. -/
theorem C4_mask_length (values : List Nat) (st w : Nat) :
    (generate_test_vector values st w).length = values.length ∧
    generate_test_vector [] st w = [] :=
  ⟨generate_test_vector_length values st w,
    List.length_eq_zero.mp (generate_test_vector_length [] st w)⟩

theorem listGet_ok (l : Wave) (t : Nat) (h : t < l.length) :
    listGet l t = Except.ok (l.getD t 0) := by
  unfold listGet
  rw [List.getElem?_eq_getElem h, List.getD_eq_getElem l 0 h]

/-- Unrolled description of the CX74 loop: with both input waveforms
present and long enough it succeeds, its first element is the state after
tick t0, and each later element follows the rising-edge update rule. -/
theorem cx74Loop_spec (inputs : SigMap) (clkW dW : Wave)
    (hc : dictGet inputs "CLK" = Except.ok clkW)
    (hd : dictGet inputs "D" = Except.ok dW) :
    ∀ (n t0 s p : Nat), t0 + n ≤ clkW.length → t0 + n ≤ dW.length →
      ∃ q, cx74Loop inputs n t0 s p = Except.ok q ∧ q.length = n ∧
        (0 < n → q.getD 0 0 = if clkW.getD t0 0 ≠ 0 ∧ p = 0 then dW.getD t0 0 else s) ∧
        (∀ k, k + 1 < n → q.getD (k + 1) 0 =
          if clkW.getD (t0 + k + 1) 0 ≠ 0 ∧ clkW.getD (t0 + k) 0 = 0
          then dW.getD (t0 + k + 1) 0 else q.getD k 0) := by
  intro n
  induction n with
  | zero =>
    intro t0 s p h1 h2
    exact ⟨[], rfl, rfl, fun h => absurd h (by omega), fun k hk => absurd hk (by omega)⟩
  | succ m ih =>
    intro t0 s p h1 h2
    have ht0c : t0 < clkW.length := by omega
    have ht0d : t0 < dW.length := by omega
    obtain ⟨rest, hrest, hlen, hhead, hrec⟩ :=
      ih (t0 + 1) (if clkW.getD t0 0 ≠ 0 ∧ p = 0 then dW.getD t0 0 else s) (clkW.getD t0 0)
        (by omega) (by omega)
    refine ⟨(if clkW.getD t0 0 ≠ 0 ∧ p = 0 then dW.getD t0 0 else s) :: rest, ?_, ?_, ?_, ?_⟩
    · simp only [cx74Loop]
      rw [hc, ok_bind, listGet_ok clkW t0 ht0c, ok_bind, hd, ok_bind,
        listGet_ok dW t0 ht0d, ok_bind, hrest, ok_bind]
    · simp [hlen]
    · intro h
      rfl
    · intro k hk
      cases k with
      | zero =>
        have h0m : 0 < m := by omega
        simp only [Nat.add_zero, List.getD_cons_succ, List.getD_cons_zero]
        exact hhead h0m
      | succ j =>
        have hj : j + 1 < m := by omega
        have hthis := hrec j hj
        have e1 : t0 + 1 + j = t0 + (j + 1) := by omega
        rw [e1] at hthis
        simp only [List.getD_cons_succ]
        exact hthis

/-- C5: the CX74 single-bit register reproduces the spec scenario
CLK = [0,1,1,0,1], D = [0,0,1,1,1] => Q = [0,0,0,0,1]; and in general a
rising edge of CLK (previous sample 0, current sample 1) captures D's
value at that same tick onto Q, while absent a rising edge Q holds its
previous value. -/
theorem C5_cx74_register :
    sim_cx74 [("CLK", [0, 1, 1, 0, 1]), ("D", [0, 0, 1, 1, 1])] 5 =
      Except.ok [("Q", [0, 0, 0, 0, 1]), ("~Q", [1, 1, 1, 1, 0])] ∧
    ∀ (inputs : SigMap) (clkW dW : Wave) (n : Nat),
      dictGet inputs "CLK" = Except.ok clkW →
      dictGet inputs "D" = Except.ok dW →
      n ≤ clkW.length → n ≤ dW.length →
      ∃ q, sim_cx74 inputs n = Except.ok [("Q", q), ("~Q", q.map (fun v => 1 - v))] ∧
        q.length = n ∧
        (0 < n → q.getD 0 0 = if clkW.getD 0 0 ≠ 0 ∧ (0 : Nat) = 0 then dW.getD 0 0 else 0) ∧
        ∀ t, t + 1 < n →
          ((clkW.getD (t + 1) 0 = 1 ∧ clkW.getD t 0 = 0) →
            q.getD (t + 1) 0 = dW.getD (t + 1) 0) ∧
          (clkW.getD (t + 1) 0 ≤ 1 → ¬(clkW.getD (t + 1) 0 = 1 ∧ clkW.getD t 0 = 0) →
            q.getD (t + 1) 0 = q.getD t 0) := by
  constructor
  · rfl
  · intro inputs clkW dW n hc hd h1 h2
    obtain ⟨q, hq, hlen, hhead, hrec⟩ :=
      cx74Loop_spec inputs clkW dW hc hd n 0 0 0 (by omega) (by omega)
    refine ⟨q, ?_, hlen, hhead, ?_⟩
    · unfold sim_cx74
      rw [hq, ok_bind]
    · intro t ht
      have hr := hrec t ht
      have e0 : (0 : Nat) + t + 1 = t + 1 := by omega
      have e00 : (0 : Nat) + t = t := by omega
      rw [e0, e00] at hr
      constructor
      · intro hrise
        obtain ⟨hr1, hr2⟩ := hrise
        rw [hr, if_pos ⟨by omega, hr2⟩]
      · intro hb hnot
        rw [hr, if_neg (fun hand => hnot ⟨by omega, hand.2⟩)]

theorem C5_cx74_register_witness :
    ∃ q : Wave, sim_cx74 [("CLK", [0, 1]), ("D", [1, 1])] 2 =
      Except.ok [("Q", q), ("~Q", q.map (fun v => 1 - v))] ∧ q.getD 1 0 = 1 := by
  obtain ⟨q, hq, hlen, hhead, hrec⟩ :=
    C5_cx74_register.2 [("CLK", [0, 1]), ("D", [1, 1])] [0, 1] [1, 1] 2 rfl rfl
      (by decide) (by decide)
  refine ⟨q, hq, ?_⟩
  have h := (hrec 0 (by decide)).1 ⟨rfl, rfl⟩
  rw [h]
  rfl

theorem memWrite_ok (mem : Wave) (addr v : Nat) (h : addr < mem.length) :
    memWrite mem addr v = Except.ok (mem.set addr v) := by
  unfold memWrite
  rw [if_pos h]

theorem cx6116MemAfter_length (a0W a1W a2W weW reW dinW : Wave) :
    ∀ t, (cx6116MemAfter a0W a1W a2W weW reW dinW t).length = 8 := by
  intro t
  induction t with
  | zero => rfl
  | succ k ih =>
    simp only [cx6116MemAfter]
    split
    · rw [List.length_set]
      exact ih
    · exact ih

/-- Unrolled description of the CX6116 loop: with all six input waveforms
present, long enough, and the address bits boolean, the loop started at
tick t0 on the memory state after t0 succeeds, and each tick's output is
the addressed cell's pre-tick content on a pure read and 0 otherwise. -/
theorem cx6116Loop_spec (inputs : SigMap) (a0W a1W a2W weW reW dinW : Wave)
    (h0 : dictGet inputs "A0" = Except.ok a0W)
    (h1 : dictGet inputs "A1" = Except.ok a1W)
    (h2 : dictGet inputs "A2" = Except.ok a2W)
    (hw : dictGet inputs "WE" = Except.ok weW)
    (hr : dictGet inputs "RE" = Except.ok reW)
    (hdin : dictGet inputs "D_in" = Except.ok dinW)
    (hb0 : ∀ v ∈ a0W, v ≤ 1) (hb1 : ∀ v ∈ a1W, v ≤ 1) (hb2 : ∀ v ∈ a2W, v ≤ 1) :
    ∀ (n t0 : Nat),
      t0 + n ≤ a0W.length → t0 + n ≤ a1W.length → t0 + n ≤ a2W.length →
      t0 + n ≤ weW.length → t0 + n ≤ reW.length → t0 + n ≤ dinW.length →
      ∃ dout, cx6116Loop inputs n t0 (cx6116MemAfter a0W a1W a2W weW reW dinW t0) =
          Except.ok dout ∧ dout.length = n ∧
        ∀ k, k < n → dout.getD k 0 =
          if reW.getD (t0 + k) 0 ≠ 0 ∧ weW.getD (t0 + k) 0 = 0 then
            (cx6116MemAfter a0W a1W a2W weW reW dinW (t0 + k)).getD
              (cx6116AddrAt a0W a1W a2W (t0 + k)) 0
          else 0 := by
  intro n
  induction n with
  | zero =>
    intro t0 hl0 hl1 hl2 hlw hlr hld
    exact ⟨[], rfl, rfl, fun k hk => absurd hk (by omega)⟩
  | succ m ih =>
    intro t0 hl0 hl1 hl2 hlw hlr hld
    have ht0 : t0 < a0W.length := by omega
    have ht1 : t0 < a1W.length := by omega
    have ht2 : t0 < a2W.length := by omega
    have htw : t0 < weW.length := by omega
    have htr : t0 < reW.length := by omega
    have htd : t0 < dinW.length := by omega
    have hmemlen : (cx6116MemAfter a0W a1W a2W weW reW dinW t0).length = 8 :=
      cx6116MemAfter_length a0W a1W a2W weW reW dinW t0
    have haddr : cx6116AddrAt a0W a1W a2W t0 < 8 := by
      have b0 : a0W.getD t0 0 ≤ 1 := by
        rw [List.getD_eq_getElem a0W 0 ht0]
        exact hb0 _ (List.getElem_mem ht0)
      have b1 : a1W.getD t0 0 ≤ 1 := by
        rw [List.getD_eq_getElem a1W 0 ht1]
        exact hb1 _ (List.getElem_mem ht1)
      have b2 : a2W.getD t0 0 ≤ 1 := by
        rw [List.getD_eq_getElem a2W 0 ht2]
        exact hb2 _ (List.getElem_mem ht2)
      unfold cx6116AddrAt cx6116Addr
      omega
    obtain ⟨rest, hrest, hlenr, hrec⟩ :=
      ih (t0 + 1) (by omega) (by omega) (by omega) (by omega) (by omega) (by omega)
    by_cases hwe : weW.getD t0 0 ≠ 0 ∧ reW.getD t0 0 = 0
    · -- write tick: the cell is overwritten, the output is 0
      have hstep : cx6116MemAfter a0W a1W a2W weW reW dinW (t0 + 1) =
          (cx6116MemAfter a0W a1W a2W weW reW dinW t0).set
            (cx6116AddrAt a0W a1W a2W t0) (dinW.getD t0 0) := by
        simp only [cx6116MemAfter]
        rw [if_pos hwe]
      refine ⟨0 :: rest, ?_, by simp [hlenr], ?_⟩
      · simp only [cx6116Loop]
        rw [h2, ok_bind, listGet_ok a2W t0 ht2, ok_bind, h1, ok_bind,
          listGet_ok a1W t0 ht1, ok_bind, h0, ok_bind, listGet_ok a0W t0 ht0, ok_bind,
          hw, ok_bind, listGet_ok weW t0 htw, ok_bind, hr, ok_bind,
          listGet_ok reW t0 htr, ok_bind, hdin, ok_bind, listGet_ok dinW t0 htd, ok_bind]
        rw [if_pos hwe, memWrite_ok _ _ _ (by rw [hmemlen]; exact haddr), ok_bind,
          if_neg (fun hre => hwe.1 hre.2), ok_bind]
        rw [← cx6116AddrAt, ← hstep] at *
        rw [← hstep] at hrest
        rw [hrest, ok_bind]
      · intro k hk
        cases k with
        | zero =>
          rw [Nat.add_zero, List.getD_cons_zero, if_neg (fun hre => hwe.1 hre.2)]
        | succ j =>
          have hj : j < m := by omega
          have hthis := hrec j hj
          have e1 : t0 + 1 + j = t0 + (j + 1) := by omega
          rw [e1] at hthis
          rw [List.getD_cons_succ]
          exact hthis
    · -- non-write tick: memory unchanged, output per the read rule
      have hstep : cx6116MemAfter a0W a1W a2W weW reW dinW (t0 + 1) =
          cx6116MemAfter a0W a1W a2W weW reW dinW t0 := by
        simp only [cx6116MemAfter]
        rw [if_neg hwe]
      by_cases hre : reW.getD t0 0 ≠ 0 ∧ weW.getD t0 0 = 0
      · refine ⟨(cx6116MemAfter a0W a1W a2W weW reW dinW t0).getD
            (cx6116AddrAt a0W a1W a2W t0) 0 :: rest, ?_, by simp [hlenr], ?_⟩
        · simp only [cx6116Loop]
          rw [h2, ok_bind, listGet_ok a2W t0 ht2, ok_bind, h1, ok_bind,
            listGet_ok a1W t0 ht1, ok_bind, h0, ok_bind, listGet_ok a0W t0 ht0, ok_bind,
            hw, ok_bind, listGet_ok weW t0 htw, ok_bind, hr, ok_bind,
            listGet_ok reW t0 htr, ok_bind, hdin, ok_bind, listGet_ok dinW t0 htd, ok_bind]
          rw [if_neg hwe, ok_bind, if_pos hre,
            listGet_ok _ _ (by rw [hmemlen]; exact haddr), ok_bind]
          rw [hstep] at hrest
          rw [hrest, ok_bind]
          rfl
        · intro k hk
          cases k with
          | zero =>
            rw [Nat.add_zero, List.getD_cons_zero, if_pos hre]
          | succ j =>
            have hj : j < m := by omega
            have hthis := hrec j hj
            have e1 : t0 + 1 + j = t0 + (j + 1) := by omega
            rw [e1] at hthis
            rw [List.getD_cons_succ]
            exact hthis
      · refine ⟨0 :: rest, ?_, by simp [hlenr], ?_⟩
        · simp only [cx6116Loop]
          rw [h2, ok_bind, listGet_ok a2W t0 ht2, ok_bind, h1, ok_bind,
            listGet_ok a1W t0 ht1, ok_bind, h0, ok_bind, listGet_ok a0W t0 ht0, ok_bind,
            hw, ok_bind, listGet_ok weW t0 htw, ok_bind, hr, ok_bind,
            listGet_ok reW t0 htr, ok_bind, hdin, ok_bind, listGet_ok dinW t0 htd, ok_bind]
          rw [if_neg hwe, ok_bind, if_neg hre, ok_bind]
          rw [hstep] at hrest
          rw [hrest, ok_bind]
        · intro k hk
          cases k with
          | zero =>
            rw [Nat.add_zero, List.getD_cons_zero, if_neg hre]
          | succ j =>
            have hj : j < m := by omega
            have hthis := hrec j hj
            have e1 : t0 + 1 + j = t0 + (j + 1) := by omega
            rw [e1] at hthis
            rw [List.getD_cons_succ]
            exact hthis

/-- C6: CX6116 per-tick semantics.  A tick with WE=1 and RE=0 overwrites
the addressed cell with the current D_in; a tick with RE=1 and WE=0 leaves
memory unchanged and outputs the addressed cell's content at that tick
(never a value written in the same tick, since reads and writes are
mutually exclusive); a tick with neither or both enables writes nothing
and outputs 0.  The concrete scenario writes 1 to address 5, reads it back
as 1 on a later tick, and reads 0 from the never-written address 3. -/
theorem C6_cx6116_memory :
    (∀ (a0W a1W a2W weW reW dinW : Wave) (t : Nat),
        weW.getD t 0 = 1 → reW.getD t 0 = 0 →
        cx6116MemAfter a0W a1W a2W weW reW dinW (t + 1) =
          (cx6116MemAfter a0W a1W a2W weW reW dinW t).set
            (cx6116AddrAt a0W a1W a2W t) (dinW.getD t 0)) ∧
    (∀ (a0W a1W a2W weW reW dinW : Wave) (t : Nat),
        (weW.getD t 0 = 0 ∧ reW.getD t 0 = 0) ∨ (weW.getD t 0 = 1 ∧ reW.getD t 0 = 1) →
        cx6116MemAfter a0W a1W a2W weW reW dinW (t + 1) =
          cx6116MemAfter a0W a1W a2W weW reW dinW t) ∧
    (∀ (inputs : SigMap) (a0W a1W a2W weW reW dinW : Wave) (n : Nat),
        dictGet inputs "A0" = Except.ok a0W →
        dictGet inputs "A1" = Except.ok a1W →
        dictGet inputs "A2" = Except.ok a2W →
        dictGet inputs "WE" = Except.ok weW →
        dictGet inputs "RE" = Except.ok reW →
        dictGet inputs "D_in" = Except.ok dinW →
        (∀ v ∈ a0W, v ≤ 1) → (∀ v ∈ a1W, v ≤ 1) → (∀ v ∈ a2W, v ≤ 1) →
        n ≤ a0W.length → n ≤ a1W.length → n ≤ a2W.length →
        n ≤ weW.length → n ≤ reW.length → n ≤ dinW.length →
        ∃ dout, sim_cx6116 inputs n = Except.ok [("D_out", dout)] ∧ dout.length = n ∧
          ∀ t, t < n → dout.getD t 0 =
            if reW.getD t 0 ≠ 0 ∧ weW.getD t 0 = 0 then
              (cx6116MemAfter a0W a1W a2W weW reW dinW t).getD
                (cx6116AddrAt a0W a1W a2W t) 0
            else 0) ∧
    sim_cx6116 cx6116ScenarioInputs 3 = Except.ok [("D_out", [0, 1, 0])] := by
  refine ⟨?_, ?_, ?_, ?_⟩
  · intro a0W a1W a2W weW reW dinW t hwe hre
    simp only [cx6116MemAfter]
    rw [if_pos ⟨by omega, hre⟩]
  · intro a0W a1W a2W weW reW dinW t h
    simp only [cx6116MemAfter]
    rw [if_neg (fun hc => by
      obtain ⟨hc1, hc2⟩ := hc
      rcases h with ⟨hx, hy⟩ | ⟨hx, hy⟩ <;> omega)]
  · intro inputs a0W a1W a2W weW reW dinW n h0 h1 h2 hw hr hdin hb0 hb1 hb2 hl0 hl1 hl2 hlw hlr hld
    obtain ⟨dout, hloop, hlen, hprop⟩ :=
      cx6116Loop_spec inputs a0W a1W a2W weW reW dinW h0 h1 h2 hw hr hdin hb0 hb1 hb2 n 0
        (by omega) (by omega) (by omega) (by omega) (by omega) (by omega)
    refine ⟨dout, ?_, hlen, ?_⟩
    · unfold sim_cx6116
      rw [show (List.replicate 8 0 : Wave) = cx6116MemAfter a0W a1W a2W weW reW dinW 0 from rfl,
        hloop, ok_bind]
    · intro t ht
      have hthis := hprop t ht
      rw [Nat.zero_add] at hthis
      exact hthis
  · rfl

theorem C6_cx6116_memory_witness :
    ∃ dout, sim_cx6116 cx6116ScenarioInputs 3 = Except.ok [("D_out", dout)] ∧
      dout.getD 1 0 =
        (cx6116MemAfter [1, 1, 1] [0, 0, 1] [1, 1, 0] [1, 0, 0] [0, 1, 1] [1, 0, 0] 1).getD
          (cx6116AddrAt [1, 1, 1] [0, 0, 1] [1, 1, 0] 1) 0 := by
  obtain ⟨dout, hok, hlen, hprop⟩ :=
    C6_cx6116_memory.2.2.1 cx6116ScenarioInputs [1, 1, 1] [0, 0, 1] [1, 1, 0] [1, 0, 0]
      [0, 1, 1] [1, 0, 0] 3 rfl rfl rfl rfl rfl rfl (by decide) (by decide) (by decide)
      (by decide) (by decide) (by decide) (by decide) (by decide) (by decide)
  refine ⟨dout, hok, ?_⟩
  have hthis := hprop 1 (by decide)
  rw [hthis, if_pos ⟨by decide, by decide⟩]

/-- C10: for boolean input waveforms the 3-bit address A2*4 + A1*2 + A0 of
the CX6116 model always lies below 8, every access to the 8-cell memory is
in bounds, and consequently the simulation never hits the out-of-range
indexing fault: it returns normally. -/
theorem C10_cx6116_address_bounds :
    (∀ a2 a1 a0 : Nat, a2 ≤ 1 → a1 ≤ 1 → a0 ≤ 1 → cx6116Addr a2 a1 a0 < 8) ∧
    (∀ (inputs : SigMap) (a0W a1W a2W weW reW dinW : Wave) (n : Nat),
        dictGet inputs "A0" = Except.ok a0W →
        dictGet inputs "A1" = Except.ok a1W →
        dictGet inputs "A2" = Except.ok a2W →
        dictGet inputs "WE" = Except.ok weW →
        dictGet inputs "RE" = Except.ok reW →
        dictGet inputs "D_in" = Except.ok dinW →
        (∀ v ∈ a0W, v ≤ 1) → (∀ v ∈ a1W, v ≤ 1) → (∀ v ∈ a2W, v ≤ 1) →
        (∀ v ∈ weW, v ≤ 1) → (∀ v ∈ reW, v ≤ 1) → (∀ v ∈ dinW, v ≤ 1) →
        n ≤ a0W.length → n ≤ a1W.length → n ≤ a2W.length →
        n ≤ weW.length → n ≤ reW.length → n ≤ dinW.length →
        (∀ t, t < n → cx6116AddrAt a0W a1W a2W t < 8) ∧
        ∃ dout, sim_cx6116 inputs n = Except.ok [("D_out", dout)]) := by
  constructor
  · intro a2 a1 a0 h2 h1 h0
    unfold cx6116Addr
    omega
  · intro inputs a0W a1W a2W weW reW dinW n h0 h1 h2 hw hr hdin hb0 hb1 hb2 hbw hbr hbd
      hl0 hl1 hl2 hlw hlr hld
    constructor
    · intro t ht
      have b0 : a0W.getD t 0 ≤ 1 := by
        rw [List.getD_eq_getElem a0W 0 (by omega)]
        exact hb0 _ (List.getElem_mem (by omega))
      have b1 : a1W.getD t 0 ≤ 1 := by
        rw [List.getD_eq_getElem a1W 0 (by omega)]
        exact hb1 _ (List.getElem_mem (by omega))
      have b2 : a2W.getD t 0 ≤ 1 := by
        rw [List.getD_eq_getElem a2W 0 (by omega)]
        exact hb2 _ (List.getElem_mem (by omega))
      unfold cx6116AddrAt cx6116Addr
      omega
    · obtain ⟨dout, hloop, hlen, hprop⟩ :=
        cx6116Loop_spec inputs a0W a1W a2W weW reW dinW h0 h1 h2 hw hr hdin hb0 hb1 hb2 n 0
          (by omega) (by omega) (by omega) (by omega) (by omega) (by omega)
      refine ⟨dout, ?_⟩
      unfold sim_cx6116
      rw [show (List.replicate 8 0 : Wave) = cx6116MemAfter a0W a1W a2W weW reW dinW 0 from rfl,
        hloop, ok_bind]

theorem C10_cx6116_address_bounds_witness :
    cx6116Addr 1 1 1 < 8 ∧
    ∃ dout, sim_cx6116 cx6116ScenarioInputs 3 = Except.ok [("D_out", dout)] := by
  constructor
  · exact C10_cx6116_address_bounds.1 1 1 1 (by decide) (by decide) (by decide)
  · exact (C10_cx6116_address_bounds.2 cx6116ScenarioInputs [1, 1, 1] [0, 0, 1] [1, 1, 0]
      [1, 0, 0] [0, 1, 1] [1, 0, 0] 3 rfl rfl rfl rfl rfl rfl (by decide) (by decide)
      (by decide) (by decide) (by decide) (by decide) (by decide) (by decide) (by decide)
      (by decide) (by decide) (by decide)).2

theorem configGet_eq_none (name : String) (h : name ∉ LEVEL_CONFIG.map Prod.fst) :
    configGet name = none := by
  unfold configGet
  rw [List.find?_eq_none.mpr]
  · rfl
  · intro x hx hc
    rw [beq_iff_eq] at hc
    exact h (List.mem_map.mpr ⟨x, hx, hc⟩)

theorem processBatch_append (pre post : List Level) (lv : Level) :
    processBatch (pre ++ lv :: post) =
      processBatch pre ++ process_level lv :: processBatch post := by
  unfold processBatch
  rw [List.map_append, List.map_cons]

theorem process_level_eq (lv : Level) (cfg : Config)
    (hcfg : configGet lv.levelName = some cfg) :
    process_level lv =
      match cfg.sim (gatherInputs lv.waveforms).1 (gatherInputs lv.waveforms).2 with
      | Except.error e => ProcessResult.simError (lv.fileName ++ ": Simulation error: " ++ e)
      | Except.ok outs => ProcessResult.done (processOutputs lv.waveforms outs
          (cfg.stability_ticks.getD 1) (cfg.warmup_ticks.getD 0)) := by
  unfold process_level
  rw [hcfg]

/-- C8: a simulation fault (in particular a model reading an input signal
it was not given, which raises a KeyError naming that signal) is caught at
process_level's try/except boundary and never propagates out of the run;
it is reported with the run's file name and the exception text, the run
produces no outputs (the simError outcome carries only the report), and
sibling runs of the batch are processed unchanged. -/
theorem C8_internal_fault :
    (∀ (lv : Level) (cfg : Config) (e : String),
        configGet lv.levelName = some cfg →
        cfg.sim (gatherInputs lv.waveforms).1 (gatherInputs lv.waveforms).2 =
          Except.error e →
        process_level lv = ProcessResult.simError (lv.fileName ++ ": Simulation error: " ++ e) ∧
        ∀ pre post, processBatch (pre ++ lv :: post) =
          processBatch pre ++
            ProcessResult.simError (lv.fileName ++ ": Simulation error: " ++ e)
              :: processBatch post) ∧
    process_level missingDLevel =
      ProcessResult.simError ("cx74_missing.json" ++ ": Simulation error: " ++ "KeyError: D") := by
  constructor
  · intro lv cfg e hcfg herr
    have hp0 := process_level_eq lv cfg hcfg
    rw [herr] at hp0
    have hp : process_level lv =
        ProcessResult.simError (lv.fileName ++ ": Simulation error: " ++ e) := hp0
    exact ⟨hp, fun pre post => by rw [processBatch_append, hp]⟩
  · rfl

theorem C8_internal_fault_witness :
    process_level missingDLevel =
      ProcessResult.simError (missingDLevel.fileName ++ ": Simulation error: " ++ "KeyError: D") :=
  (C8_internal_fault.1 missingDLevel ⟨["D", "CLK"], ["Q", "~Q"], some 3, none, sim_cx74⟩
    "KeyError: D" rfl rfl).1

/-- C9: a run naming a component identifier absent from LEVEL_CONFIG is
reported by name ("No config for <name>, skipping"), skipped without a
fatal error and without producing outputs or modifying anything (the
noConfig outcome carries only the report), and the remaining runs of the
batch are processed unchanged. -/
theorem C9_unknown_component (lv : Level)
    (h : lv.levelName ∉ LEVEL_CONFIG.map Prod.fst) :
    process_level lv =
      ProcessResult.noConfig
        (lv.fileName ++ ": No config for " ++ lv.levelName ++ ", skipping") ∧
    ∀ pre post, processBatch (pre ++ lv :: post) =
      processBatch pre ++
        ProcessResult.noConfig
          (lv.fileName ++ ": No config for " ++ lv.levelName ++ ", skipping")
          :: processBatch post := by
  have hp : process_level lv =
      ProcessResult.noConfig
        (lv.fileName ++ ": No config for " ++ lv.levelName ++ ", skipping") := by
    unfold process_level
    rw [configGet_eq_none lv.levelName h]
  exact ⟨hp, fun pre post => by rw [processBatch_append, hp]⟩

theorem C9_unknown_component_witness :
    process_level ⟨"cx999.json", "CX999", []⟩ =
      ProcessResult.noConfig ("cx999.json" ++ ": No config for " ++ "CX999" ++ ", skipping") :=
  (C9_unknown_component ⟨"cx999.json", "CX999", []⟩ (by decide)).1

/-- C7 counterexample: the input waveforms of mismatchLevel have lengths
3 (CLK) and 1 (D), a mismatch, yet process_level neither reports nor skips
the run: it completes and rewrites the Q output using the last input
waveform's single tick. -/
theorem C7_counterexample :
    (parseWave "011").length ≠ (parseWave "1").length ∧
    process_level mismatchLevel = ProcessResult.done [("Q", "0", "?")] := by
  constructor
  · decide
  · rfl

/-- C7 (amended): a length mismatch across input waveforms is not
detected or reported as such; the run's tick count is simply the last
accepted input waveform's length.  When that makes the simulation index a
waveform out of range, the exception is caught, the run is reported with
the file name and the exception text (not with the offending signal name
and the lengths) and skipped, and the batch continues around it;
otherwise the mismatched run completes normally. -/
theorem C7_length_mismatch :
    (∀ (wfs : List LevelWaveform) (wf : LevelWaveform),
        wf.is_input = true → wf.signal ≠ "vcc" → wf.signal ≠ "nc" →
        (gatherInputs (wfs ++ [wf])).2 = wf.values.length) ∧
    process_level oobLevel =
      ProcessResult.simError
        ("cx74_oob.json" ++ ": Simulation error: " ++ "list index out of range") ∧
    processBatch [goodLevel, oobLevel, mismatchLevel] =
      [process_level goodLevel,
        ProcessResult.simError
          ("cx74_oob.json" ++ ": Simulation error: " ++ "list index out of range"),
        ProcessResult.done [("Q", "0", "?")]] := by
  refine ⟨?_, rfl, rfl⟩
  intro wfs wf hin hv hn
  unfold gatherInputs
  rw [List.foldl_append]
  simp only [List.foldl_cons, List.foldl_nil]
  rw [if_pos ⟨hin, hv, hn⟩]

theorem C7_length_mismatch_witness :
    (gatherInputs [⟨"CLK", true, "011"⟩, ⟨"D", true, "1"⟩]).2 = 1 :=
  C7_length_mismatch.1 [⟨"CLK", true, "011"⟩] ⟨"D", true, "1"⟩ rfl
    (by decide) (by decide)
